import Mathlib

set_option maxRecDepth 20000

/-!
Verification of the company-chatbot semantic retrieval engine.

Shallow embedding of the retrieval core of `chatbot.py` (class `CompanyChatbot`):
the chunk builder (`_build_dataset_chunks`), the similarity ranker
(`_find_relevant_chunks`), the answer extractor (`_extract_answer_from_chunk`),
the chat orchestrator (`chat`), and the data loader (`load_company_data`).

Modelling conventions:
* Python strings are `List Char`; slicing, `startswith`, `strip`, `replace`,
  `join` and `lower` are modelled character-wise.
* Cosine-similarity scores are modelled as `ℚ`.  The float threshold `0.30`
  becomes `3/10`; only order comparisons on scores are used by the code.
* `np.argsort` (ascending) is modelled as a stable insertion sort of
  (index, value) pairs; `[::-1]` is `List.reverse`; Python's stable
  `list.sort(reverse=True, key=...)` is a stable insertion sort with a
  descending relation.
* The sentence-transformers encoder is an oracle `simsOf : List Char →
  Option (List ℚ)` giving the similarity row for a question (`none` models a
  raised exception, which `_find_relevant_chunks` catches and turns into `[]`).
* `try/except` around file loading is modelled by `LoadOutcome`.
-/

/-- Convert a string literal to the `List Char` representation used throughout. -/
def txt (s : String) : List Char := s.toList

/-- Python `str.strip()`: drop leading and trailing whitespace. -/
def trimChars (l : List Char) : List Char :=
  ((l.dropWhile Char.isWhitespace).reverse.dropWhile Char.isWhitespace).reverse

/-- Python `str.lower()` (character-wise). -/
def lowerChars (l : List Char) : List Char := l.map Char.toLower

/-- Python `', '.join(l)`. -/
def joinComma (l : List (List Char)) : List Char := List.intercalate (txt ", ") l

/-- Python `' '.join(l)`. -/
def joinSpace (l : List (List Char)) : List Char := List.intercalate (txt " ") l

/-- Fuel-driven worker for Python `str.replace` with a non-empty pattern:
replaces non-overlapping occurrences left to right.  Fuel `s.length` is enough
because each step consumes at least one character of `s`. -/
def replaceFuel (pat rep : List Char) : ℕ → List Char → List Char
  | 0, s => s
  | _ + 1, [] => []
  | n + 1, c :: cs =>
    if pat.isPrefixOf (c :: cs) then rep ++ replaceFuel pat rep n ((c :: cs).drop pat.length)
    else c :: replaceFuel pat rep n cs

/-- Python `s.replace(pat, rep)` (all occurrences; for an empty pattern Python
inserts `rep` before every character and at the end). -/
def replaceList (s pat rep : List Char) : List Char :=
  match pat with
  | [] => rep ++ s.flatMap (fun c => c :: rep)
  | p :: ps => replaceFuel (p :: ps) rep s.length s

/-- Python `pat in s` (substring containment test). -/
def containsSub (pat : List Char) : List Char → Bool
  | [] => pat.isEmpty
  | c :: cs => pat.isPrefixOf (c :: cs) || containsSub pat cs

/-- One service entry of the company record (`services[i]` in the JSON). -/
structure ServiceInfo where
  name : List Char := []
  details : List Char := []
  subServices : List (List Char) := []
deriving DecidableEq

/-- The `contact` sub-object of the company record.  `none` models a missing or
empty (falsy) `contact` dict. -/
structure ContactInfo where
  email : List Char := []
  phone : List Char := []
  address : List Char := []
  website : List Char := []
deriving DecidableEq

/-- The structured company record consumed by `_build_dataset_chunks`.  Empty
strings/lists model missing (falsy) JSON fields, matching the `data.get(...)`
defaults in the source. -/
structure CompanyData where
  companyName : List Char := []
  companyDescription : List Char := []
  founded : List Char := []
  teamSize : List Char := []
  countriesServed : List (List Char) := []
  portfolioLink : List Char := []
  portfolioMessageEn : List Char := []
  contact : Option ContactInfo := none
  services : List ServiceInfo := []
  companyValues : List (List Char) := []
  paymentMethods : List (List Char) := []
  projectProcessEnglish : List (List Char) := []
  projectProcessUrdu : List (List Char) := []
  faqAnswers : List (List Char × List Char) := []
  testimonials : List (List Char) := []
deriving DecidableEq

/-- The metadata dict stored per chunk in `chunk_metadata`. -/
structure ChunkMeta where
  type : List Char
  serviceName : Option (List Char) := none
  topic : Option (List Char) := none
deriving DecidableEq

/-- The record whose fields are all absent: what `load_company_data` returns on
error (`{}` in Python). -/
def emptyCompanyData : CompanyData := {}

/-- Outcome of opening and parsing the company-data file in
`load_company_data`. -/
inductive LoadOutcome where
  | ok (d : CompanyData)
  | fileNotFound
  | invalidJSON

/-- Model of `load_company_data`: returns the parsed record, or `{}` when the file is
missing (`FileNotFoundError`) or the JSON is invalid (`json.JSONDecodeError`);
both exceptions are caught, so loading never raises. -/
def loadCompanyData : LoadOutcome → CompanyData
  | .ok d => d
  | .fileNotFound => emptyCompanyData
  | .invalidJSON => emptyCompanyData

/-- Extra FAQ paraphrase chunks from the `elif key == '...':` chain of
`_build_dataset_chunks` (source lines 279–343). -/
def faqExtras (key answer : List Char) : List (List Char) :=
  if key = txt "nda" then
    [txt "Do you sign NDA " ++ answer,
     txt "Kya aap NDA sign karte hain " ++ answer]
  else if key = txt "source_code" then
    [txt "Will I get source code " ++ answer,
     txt "Kya mujhe source code milega " ++ answer,
     txt "Do you give documentation " ++ answer,
     txt "Kya aap documentation dete hain " ++ answer,
     txt "Kya aap documentation provide karte hain " ++ answer,
     txt "Documentation provide karte hain " ++ answer,
     txt "Do you provide documentation " ++ answer]
  else if key = txt "timeline" then
    [txt "Project timeline delivery time " ++ answer,
     txt "Project kitne time mein complete hoga " ++ answer,
     txt "Delivery time kya hai " ++ answer,
     txt "Typical timeline kya hai " ++ answer]
  else if key = txt "technologies" then
    [txt "Which technologies do you use " ++ answer,
     txt "Aap kaun se technologies use karte hain " ++ answer,
     txt "Aap kaun se programming languages use karte hain " ++ answer]
  else if key = txt "hosting" then
    [txt "Do you provide hosting " ++ answer,
     txt "Kya aap hosting provide karte hain " ++ answer]
  else if key = txt "maintenance" then
    [txt "Do you provide maintenance " ++ answer,
     txt "Kya aap maintenance provide karte hain " ++ answer]
  else if key = txt "support" then
    [txt "Do you provide customer support " ++ answer,
     txt "Kya aap customer support dete hain " ++ answer,
     txt "Support policy kya hai " ++ answer]
  else if key = txt "revisions" then
    [txt "How many revisions do you offer " ++ answer,
     txt "Kitne revisions milte hain " ++ answer]
  else if key = txt "payment_terms" then
    [txt "Do you take advance payment " ++ answer,
     txt "Kya aap advance payment lete hain " ++ answer]
  else if key = txt "invoice" then
    [txt "Do you provide invoice " ++ answer,
     txt "Do you give invoice " ++ answer,
     txt "Kya aap invoice dete hain " ++ answer,
     txt "Kya aap invoice provide karte hain " ++ answer,
     txt "Invoice provide karte hain " ++ answer,
     txt "Do you send invoice " ++ answer]
  else if key = txt "international" then
    [txt "Do you accept international payments " ++ answer,
     txt "Kya aap international payments accept karte hain " ++ answer,
     txt "international " ++ answer]
  else if key = txt "pricing" then
    [txt "What are your prices " ++ answer,
     txt "How much does it cost " ++ answer,
     txt "What is your pricing model " ++ answer,
     txt "Kitna paisa lagega " ++ answer,
     txt "Price kya hai " ++ answer,
     txt "Pricing model kya hai " ++ answer]
  else if key = txt "team_experience" then
    [txt "How experienced is your team " ++ answer,
     txt "Aapki team kitni experienced hai " ++ answer,
     txt "Team structure kya hai " ++ answer,
     txt "What is your team structure " ++ answer]
  else if key = txt "communication" then
    [txt "How can I contact you " ++ answer,
     txt "Aap se kaise contact kar sakte hain " ++ answer,
     txt "Kya aapke paas WhatsApp hai " ++ answer,
     txt "Kya hum call par baat kar sakte hain " ++ answer]
  else []

/-- Chunks and metadata emitted for one service by the per-service loop of
`_build_dataset_chunks` (source lines 198–220): one `Service ...` chunk plus
keyword-conditional Urdu/Hindi paraphrases, all covered by a single metadata
entry, and a separate sub-services chunk with its own metadata entry. -/
def serviceChunks (service : ServiceInfo) : List (List Char) × List ChunkMeta :=
  let detailPart :=
    if service.name ≠ [] ∧ service.details ≠ [] then
      ([txt "Service " ++ service.name ++ txt " " ++ service.details]
        ++ (if containsSub (txt "Web") service.name
               || containsSub (txt "website") (lowerChars service.name) then
              [txt "Kya aap websites banate hain " ++ service.details] else [])
        ++ (if containsSub (txt "Mobile") service.name
               || containsSub (txt "app") (lowerChars service.name) then
              [txt "Kya aap mobile apps banate hain " ++ service.details] else [])
        ++ (if containsSub (txt "AI") service.name
               || containsSub (txt "Artificial Intelligence") service.name then
              [txt "Kya aap AI systems develop karte hain " ++ service.details] else [])
        ++ (if containsSub (txt "Cloud") service.name then
              [txt "Kya aap cloud services dete hain " ++ service.details] else [])
        ++ (if containsSub (txt "UI/UX") service.name
               || containsSub (txt "Design") service.name then
              [txt "Kya aap UI/UX design karte hain " ++ service.details] else []),
       [{ type := txt "service", serviceName := some service.name }])
    else ([], [])
  let subPart :=
    if service.subServices ≠ [] then
      ([service.name ++ txt " includes " ++ joinComma (service.subServices.take 10)],
       [{ type := txt "sub_services", serviceName := some service.name }])
    else ([], [])
  (detailPart.1 ++ subPart.1, detailPart.2 ++ subPart.2)

/-- Chunks and metadata for one `faq_answers` entry (source lines 273–344):
one generic `key_clean + answer` chunk plus the topic-specific extras, all
covered by a single metadata entry. -/
def faqChunks (entry : List Char × List Char) : List (List Char) × List ChunkMeta :=
  if entry.2 ≠ [] then
    let keyClean := entry.1.map (fun c => if c = '_' then ' ' else c)
    ((keyClean ++ txt " " ++ entry.2) :: faqExtras entry.1 entry.2,
     [{ type := txt "faq", topic := some entry.1 }])
  else ([], [])

/-- Chunk and metadata for one testimonial comment (source lines 347–355):
company name occurrences are replaced by a generic placeholder first. -/
def testimonialChunks (companyName comment : List Char) :
    List (List Char) × List ChunkMeta :=
  if comment ≠ [] then
    let commentClean :=
      replaceList (replaceList comment companyName (txt "the company"))
        (txt "Softerio Solutions") (txt "the company")
    ([txt "Client review feedback testimonial customer experience story " ++ commentClean],
     [{ type := txt "testimonial" }])
  else ([], [])

/-- Model of `_build_dataset_chunks` (source lines 61–359): expand the company record
into the ordered corpus of chunk texts (`dataset_chunks`) paired with the
metadata list (`chunk_metadata`).  The per-section chunk and metadata counts
are transcribed exactly as in the source, including the places where they
differ (15 description chunks vs `* 16` metadata entries, 14 services-list
chunks vs `* 13` metadata entries, and single metadata appends covering
several chunks in the per-service and FAQ loops). -/
def buildDatasetChunks (data : CompanyData) : List (List Char) × List ChunkMeta :=
  let nameSec :=
    if data.companyName ≠ [] then
      ([txt "What is the company name answer " ++ data.companyName,
        txt "Company name kya hai answer " ++ data.companyName,
        txt "Company ka naam kya hai answer " ++ data.companyName,
        txt "Naam kya hai company ka answer " ++ data.companyName,
        txt "Company name is " ++ data.companyName,
        txt "The company name is " ++ data.companyName],
       List.replicate 6 { type := txt "company_name" })
    else ([], [])
  let descSec :=
    if data.companyDescription ≠ [] then
      ([txt "Company description " ++ data.companyDescription,
        txt "About the company " ++ data.companyDescription,
        txt "Who we are " ++ data.companyDescription,
        txt "About us " ++ data.companyDescription,
        txt "Who are you " ++ data.companyDescription,
        txt "Tum kon ho " ++ data.companyDescription,
        txt "Aap kon hain " ++ data.companyDescription,
        txt "Tell me about your company description " ++ data.companyDescription,
        txt "Aapki company kya karti hai description " ++ data.companyDescription,
        txt "What does your company do description " ++ data.companyDescription,
        txt "Company overview description " ++ data.companyDescription,
        txt "About company information description " ++ data.companyDescription,
        txt "Company details description overview " ++ data.companyDescription,
        txt "Company information description " ++ data.companyDescription,
        txt "Tell me company description " ++ data.companyDescription],
       List.replicate 16 { type := txt "company_description" })
    else ([], [])
  let foundedSec :=
    if data.founded ≠ [] then
      ([txt "Company founded in " ++ data.founded,
        txt "Founded year " ++ data.founded,
        txt "When was the company founded " ++ data.founded,
        txt "Aapki company kab bani " ++ data.founded,
        txt "Company kab bani " ++ data.founded],
       List.replicate 5 { type := txt "founded" })
    else ([], [])
  let teamSec :=
    if data.teamSize ≠ [] then
      ([txt "Team size " ++ data.teamSize,
        txt "Number of team members " ++ data.teamSize,
        txt "How big is your team " ++ data.teamSize,
        txt "Aapke team mein kitne log hain " ++ data.teamSize,
        txt "Team mein kitne log hain " ++ data.teamSize],
       List.replicate 5 { type := txt "team_size" })
    else ([], [])
  let intlSec :=
    if data.countriesServed ≠ [] then
      let countries := joinComma data.countriesServed
      ([txt "Yes we work with clients from " ++ countries,
        txt "International projects " ++ countries,
        txt "Do you work internationally yes " ++ countries,
        txt "Aap international projects karte hain haan " ++ countries,
        txt "International projects haan " ++ countries],
       List.replicate 5 { type := txt "international" })
    else ([], [])
  let portfolioSec :=
    if data.portfolioLink ≠ [] then
      ([txt "Portfolio " ++ data.portfolioMessageEn ++ txt " " ++ data.portfolioLink,
        txt "Do you have a portfolio yes " ++ data.portfolioLink,
        txt "Portfolio website " ++ data.portfolioLink,
        txt "Kya aapke paas portfolio hai haan " ++ data.portfolioLink,
        txt "Aapne kaun se projects complete kiye hain " ++ data.portfolioLink,
        txt "What projects have you completed " ++ data.portfolioLink],
       List.replicate 6 { type := txt "portfolio" })
    else ([], [])
  let contactSec :=
    match data.contact with
    | some c =>
      let contactFull := txt "Email " ++ c.email ++ txt " Phone " ++ c.phone
        ++ txt " Address " ++ c.address ++ txt " Website " ++ c.website
      let base :=
        ([txt "Contact information " ++ contactFull,
          txt "Contact details " ++ contactFull,
          txt "How to contact " ++ contactFull,
          txt "Contact details batao " ++ contactFull,
          txt "Contact kya hai " ++ contactFull],
         List.replicate 5 ({ type := txt "contact" } : ChunkMeta))
      let addr :=
        if c.address ≠ [] then
          ([txt "Office address " ++ c.address,
            txt "Office location " ++ c.address,
            txt "Where is your office " ++ c.address,
            txt "Aapka office kahan hai " ++ c.address,
            txt "Office kahan hai " ++ c.address],
           List.replicate 5 ({ type := txt "address" } : ChunkMeta))
        else ([], [])
      (base.1 ++ addr.1, base.2 ++ addr.2)
    | none => ([], [])
  let servicesSec :=
    if data.services ≠ [] then
      let serviceNames := (data.services.filter (fun s => s.name ≠ [])).map (·.name)
      let listPart :=
        if serviceNames ≠ [] then
          let servicesStr := joinComma serviceNames
          ([txt "Services offered " ++ servicesStr,
            txt "What services do you provide " ++ servicesStr,
            txt "Services we provide " ++ servicesStr,
            txt "What services do you offer " ++ servicesStr,
            txt "Aap kya services dete hain answer " ++ servicesStr,
            txt "Services kya hain answer " ++ servicesStr,
            txt "Kya services dete hain answer " ++ servicesStr,
            txt "Aap kya services dete hain " ++ servicesStr,
            txt "Kya services dete hain " ++ servicesStr,
            txt "Services list " ++ servicesStr,
            txt "What services list do you offer " ++ servicesStr,
            txt "Company services list provided " ++ servicesStr,
            txt "All services we provide list " ++ servicesStr,
            txt "Services offered by company " ++ servicesStr],
           List.replicate 13 ({ type := txt "services_list" } : ChunkMeta))
        else ([], [])
      let eachPart :=
        ((data.services.map serviceChunks).flatMap (·.1),
         (data.services.map serviceChunks).flatMap (·.2))
      (listPart.1 ++ eachPart.1, listPart.2 ++ eachPart.2)
    else ([], [])
  let valuesSec :=
    if data.companyValues ≠ [] then
      let valuesStr := joinComma data.companyValues
      ([txt "Company values " ++ valuesStr,
        txt "Company rules and policies " ++ valuesStr,
        txt "What are the company rules " ++ valuesStr,
        txt "Company policies " ++ valuesStr,
        txt "Company k rules kya hain " ++ valuesStr,
        txt "Rules kya hain company ke " ++ valuesStr],
       List.replicate 6 { type := txt "company_values" })
    else ([], [])
  let paymentSec :=
    if data.paymentMethods ≠ [] then
      let paymentStr := joinComma data.paymentMethods
      ([txt "Payment methods " ++ paymentStr,
        txt "What payment methods do you accept " ++ paymentStr,
        txt "How do I pay " ++ paymentStr,
        txt "Payment methods accept hain " ++ paymentStr,
        txt "Kaun se payment methods accept hain " ++ paymentStr,
        txt "Payment kaise karni hai " ++ paymentStr],
       List.replicate 6 { type := txt "payment_methods" })
    else ([], [])
  let processEnSec :=
    if data.projectProcessEnglish ≠ [] then
      let processEn := joinSpace data.projectProcessEnglish
      ([txt "Project process development workflow steps " ++ processEn,
        txt "How does your process work development " ++ processEn,
        txt "Development process workflow steps " ++ processEn,
        txt "Aapka development process kya hai steps " ++ processEn,
        txt "Development kaise hoti hai process " ++ processEn,
        txt "Aap projects kaise handle karte hain development process " ++ processEn,
        txt "Development methodology process workflow " ++ processEn,
        txt "What is your development methodology process " ++ processEn,
        txt "Aapka process kya hai development workflow " ++ processEn,
        txt "Process kya hai development steps " ++ processEn,
        txt "How do you handle projects development process " ++ processEn,
        txt "Project handling process development workflow " ++ processEn],
       List.replicate 12 { type := txt "project_process" })
    else ([], [])
  let processUrSec :=
    if data.projectProcessUrdu ≠ [] then
      let processUr := joinSpace data.projectProcessUrdu
      ([txt "Project process Urdu " ++ processUr,
        txt "Development process Urdu " ++ processUr],
       List.replicate 2 { type := txt "project_process" })
    else ([], [])
  let faqSec :=
    ((data.faqAnswers.map faqChunks).flatMap (·.1),
     (data.faqAnswers.map faqChunks).flatMap (·.2))
  let testiSec :=
    ((data.testimonials.map (testimonialChunks data.companyName)).flatMap (·.1),
     (data.testimonials.map (testimonialChunks data.companyName)).flatMap (·.2))
  (nameSec.1 ++ descSec.1 ++ foundedSec.1 ++ teamSec.1 ++ intlSec.1 ++ portfolioSec.1
     ++ contactSec.1 ++ servicesSec.1 ++ valuesSec.1 ++ paymentSec.1 ++ processEnSec.1
     ++ processUrSec.1 ++ faqSec.1 ++ testiSec.1,
   nameSec.2 ++ descSec.2 ++ foundedSec.2 ++ teamSec.2 ++ intlSec.2 ++ portfolioSec.2
     ++ contactSec.2 ++ servicesSec.2 ++ valuesSec.2 ++ paymentSec.2 ++ processEnSec.2
     ++ processUrSec.2 ++ faqSec.2 ++ testiSec.2)

/-- The literal `patterns_to_remove` list of `_extract_answer_from_chunk`
(source lines 417–585), in source order. -/
def patternsToRemove : List (List Char) := [
  txt "Client review feedback testimonial customer experience story ",
  txt "Contact details batao ",
  txt "Contact kya hai ",
  txt "Company name kya hai answer ",
  txt "Company ka naam hai ",
  txt "Company ka naam kya hai answer ",
  txt "Naam kya hai company ka answer ",
  txt "What is the company name answer ",
  txt "Company name is ",
  txt "Name of the company is ",
  txt "Aap kya services dete hain answer ",
  txt "Services kya hain answer ",
  txt "Kya services dete hain ",
  txt "What is the company name ",
  txt "Company name information ",
  txt "The company name is ",
  txt "Name of the company ",
  txt "Company name ",
  txt "Company description ",
  txt "About the company ",
  txt "Who we are ",
  txt "About us ",
  txt "Who are you ",
  txt "Tum kon ho ",
  txt "Aap kon hain ",
  txt "Contact information ",
  txt "Contact details ",
  txt "How to contact ",
  txt "What services do you provide ",
  txt "Services we provide ",
  txt "Services offered ",
  txt "Company k rules kya hain ",
  txt "Rules kya hain company ke ",
  txt "What are the company rules ",
  txt "Company rules and policies ",
  txt "Company policies ",
  txt "Company values ",
  txt "Payment methods ",
  txt "Service ",
  txt "Tell me about your company description ",
  txt "Aapki company kya karti hai description ",
  txt "What does your company do description ",
  txt "Company overview description ",
  txt "Company founded in ",
  txt "Founded year ",
  txt "When was the company founded ",
  txt "Aapki company kab bani ",
  txt "Company kab bani ",
  txt "Team size ",
  txt "Number of team members ",
  txt "How big is your team ",
  txt "Aapke team mein kitne log hain ",
  txt "Team mein kitne log hain ",
  txt "Office address ",
  txt "Office location ",
  txt "Where is your office ",
  txt "Aapka office kahan hai ",
  txt "Office kahan hai ",
  txt "Yes we work with clients from ",
  txt "International projects ",
  txt "Do you work internationally yes ",
  txt "Aap international projects karte hain haan ",
  txt "International projects haan ",
  txt "Portfolio ",
  txt "Do you have a portfolio yes ",
  txt "Portfolio website ",
  txt "Kya aapke paas portfolio hai haan ",
  txt "Aapne kaun se projects complete kiye hain ",
  txt "What projects have you completed ",
  txt "Kya aap websites banate hain ",
  txt "Kya aap mobile apps banate hain ",
  txt "Kya aap AI systems develop karte hain ",
  txt "Kya aap cloud services dete hain ",
  txt "Kya aap UI/UX design karte hain ",
  txt "What are your prices ",
  txt "How much does it cost ",
  txt "What is your pricing model ",
  txt "Kitna paisa lagega ",
  txt "Price kya hai ",
  txt "Pricing model kya hai ",
  txt "How experienced is your team ",
  txt "Aapki team kitni experienced hai ",
  txt "Team structure kya hai ",
  txt "What is your team structure ",
  txt "How can I contact you ",
  txt "Aap se kaise contact kar sakte hain ",
  txt "Kya aapke paas WhatsApp hai ",
  txt "Kya hum call par baat kar sakte hain ",
  txt "What services do you offer ",
  txt "Which technologies do you use ",
  txt "Do you provide customer support ",
  txt "Development kaise hoti hai ",
  txt "Project kitne time mein complete hoga ",
  txt "Delivery time kya hai ",
  txt "Typical timeline kya hai ",
  txt "Aap kaun se technologies use karte hain ",
  txt "Kya aap hosting provide karte hain ",
  txt "Project process development workflow steps ",
  txt "How does your process work development ",
  txt "Development process workflow steps ",
  txt "Aapka development process kya hai steps ",
  txt "Development kaise hoti hai process ",
  txt "Aap projects kaise handle karte hain development process ",
  txt "Development methodology process workflow ",
  txt "What is your development methodology process ",
  txt "Project process Urdu ",
  txt "Development process Urdu ",
  txt "Will I get source code ",
  txt "Kya mujhe source code milega ",
  txt "Do you give documentation ",
  txt "Kya aap documentation dete hain ",
  txt "Project timeline delivery time ",
  txt "Do you provide hosting ",
  txt "Do you provide maintenance ",
  txt "Kya aap maintenance provide karte hain ",
  txt "How many revisions do you offer ",
  txt "Kitne revisions milte hain ",
  txt "Do you take advance payment ",
  txt "Kya aap advance payment lete hain ",
  txt "Do you provide invoice ",
  txt "Do you give invoice ",
  txt "Kya aap invoice dete hain ",
  txt "Do you sign NDA ",
  txt "Kya aap NDA sign karte hain ",
  txt "Support policy kya hai ",
  txt "international ",
  txt "Do you accept international payments ",
  txt "Kya aap international payments accept karte hain ",
  txt "Kaun se payment methods accept hain ",
  txt "Payment kaise karni hai ",
  txt "What payment methods do you accept ",
  txt "How do I pay ",
  txt "Payment methods accept hain ",
  txt "Kya aapke paas packages hain ",
  txt "Kya aap jaldi delivery kar sakte hain ",
  txt "Kya aapke paas dedicated developers hain ",
  txt "Kya main monthly developers hire kar sakta hoon ",
  txt "Kya aap email support dete hain ",
  txt "Kya aap business automation karte hain ",
  txt "Do you build websites ",
  txt "Do you create mobile apps ",
  txt "Do you develop AI systems ",
  txt "Can you automate my business ",
  txt "Do you provide cloud services ",
  txt "Do you do UI/UX design ",
  txt "Can you develop blockchain solutions ",
  txt "Tell me about your AI services ",
  txt "Services list ",
  txt "Kya services dete hain ",
  txt "What services list do you offer ",
  txt "Company services list provided ",
  txt "All services we provide list ",
  txt "Services offered by company ",
  txt "Aapka process kya hai development workflow ",
  txt "Process kya hai development steps ",
  txt "How do you handle projects development process ",
  txt "Project handling process development workflow ",
  txt "About company information description ",
  txt "Company details description overview ",
  txt "Company information description ",
  txt "Tell me company description ",
  txt "Kya aap invoice provide karte hain ",
  txt "Invoice provide karte hain ",
  txt "Do you send invoice ",
  txt "Kya aap documentation provide karte hain ",
  txt "Documentation provide karte hain ",
  txt "Do you provide documentation "]

/-- Comparison used to model Python `sorted(patterns_to_remove, key=len,
reverse=True)`: stable descending by length. -/
def lenRel (a b : List Char) : Prop := b.length ≤ a.length

instance : DecidableRel lenRel := fun a b => inferInstanceAs (Decidable (b.length ≤ a.length))

instance : IsTotal (List Char) lenRel := ⟨fun a b => Nat.le_total b.length a.length⟩

instance : IsTrans (List Char) lenRel := ⟨fun _ _ _ h1 h2 => Nat.le_trans h2 h1⟩

/-- Model of `_extract_answer_from_chunk` (source lines 411–594): strip the first
matching pattern in length-descending order, trim whitespace, and fall back to
the original chunk when nothing matches or the remainder is empty. -/
def extractAnswer (chunk : List Char) : List Char :=
  match (List.insertionSort lenRel patternsToRemove).find? (fun p => p.isPrefixOf chunk) with
  | some p =>
    let answer := trimChars (chunk.drop p.length)
    if answer = [] then chunk else answer
  | none => chunk

/-- The similarity floor of `_find_relevant_chunks` (`similarity > 0.30`).
Built as an explicit reduced fraction so that score comparisons reduce inside
the kernel (`3 / 10` as a term would go through `Rat.div`, which does not). -/
def simThreshold : ℚ := ⟨3, 10, by norm_num, by norm_num⟩

/-- Sanity check: the threshold is the rational number 3/10. -/
theorem simThreshold_eq : simThreshold = 3 / 10 := by
  rw [simThreshold, Rat.mk'_eq_divInt, Rat.divInt_eq_div]
  norm_num

/-- Score 1/2 (above the threshold), as an explicit reduced fraction. -/
def halfScore : ℚ := ⟨1, 2, by norm_num, by norm_num⟩

/-- Score 1/5 (at or below the threshold), as an explicit reduced fraction. -/
def lowScore : ℚ := ⟨1, 5, by norm_num, by norm_num⟩

/-- Ascending comparison on (index, similarity) pairs for the `np.argsort`
model. -/
def ascRel (a b : ℕ × ℚ) : Prop := a.2 ≤ b.2

instance : DecidableRel ascRel := fun a b => inferInstanceAs (Decidable (a.2 ≤ b.2))

instance : IsTotal (ℕ × ℚ) ascRel := ⟨fun a b => le_total a.2 b.2⟩

instance : IsTrans (ℕ × ℚ) ascRel := ⟨fun _ _ _ h1 h2 => le_trans h1 h2⟩

/-- Descending comparison on (chunk, similarity) pairs for the Python
`relevant.sort(reverse=True, key=lambda x: x[1])` model. -/
def rankRel (a b : List Char × ℚ) : Prop := b.2 ≤ a.2

instance : DecidableRel rankRel := fun a b => inferInstanceAs (Decidable (b.2 ≤ a.2))

instance : IsTotal (List Char × ℚ) rankRel := ⟨fun a b => le_total b.2 a.2⟩

instance : IsTrans (List Char × ℚ) rankRel := ⟨fun _ _ _ h1 h2 => le_trans h2 h1⟩

/-- The (index, value) pairs of a similarity row, in index order. -/
def idxPairs (sims : List ℚ) : List (ℕ × ℚ) :=
  (List.range sims.length).map (fun i => (i, sims.getD i 0))

/-- Model of `np.argsort(similarities)[::-1]`: indices of `sims` in descending value
order (ascending stable argsort, then reversed). -/
def argsortDesc (sims : List ℚ) : List ℕ :=
  ((List.insertionSort ascRel (idxPairs sims)).map Prod.fst).reverse

/-- The ranking core of `_find_relevant_chunks` (source lines 377–405), from
the similarity row onwards: over-fetch the `top_k * 5` best indices, keep the
candidates with similarity strictly above the threshold, re-sort descending
(stably), truncate to `top_k`.  `entries` pairs each chunk with its similarity
(`dataset_chunks[idx]` and `similarities[idx]` are index-aligned). -/
def findRelevantCore (entries : List (List Char × ℚ)) (topK : ℕ) : List (List Char × ℚ) :=
  let sims := entries.map Prod.snd
  let topIndices := (argsortDesc sims).take (topK * 5)
  let relevant := topIndices.filterMap (fun idx =>
    match entries.get? idx with
    | some (chunk, sim) => if simThreshold < sim then some (chunk, sim) else none
    | none => none)
  (List.insertionSort rankRel relevant).take topK

/-- Model of `_find_relevant_chunks` (source lines 361–409).  `available` is
`embedding_model is not None and chunk_embeddings is not None`; `simsOf`
returns the cosine-similarity row for the question, with `none` modelling an
exception inside the `try` block (caught; the function then returns `[]`). -/
def findRelevantChunks (available : Bool) (chunks : List (List Char))
    (simsOf : List Char → Option (List ℚ)) (question : List Char) (topK : ℕ) :
    List (List Char × ℚ) :=
  if available then
    match simsOf question with
    | some sims => findRelevantCore (chunks.zip sims) topK
    | none => []
  else []

/-- The prompt-for-input message of `chat` (source line 600). -/
def promptMsg : List Char := txt "Please ask me something about Softerio Solutions!"

/-- The generic fallback of `chat` when no relevant chunk is found
(source line 606). -/
def fallbackMsg : List Char :=
  txt "I understand your question. Let me help you with information about Softerio Solutions. Could you be more specific?"

/-- Model of `chat` (source lines 596–614): trim the input, prompt on empty input,
rank with `top_k = 3`, fall back when nothing is relevant, otherwise extract
the answer from the best chunk. -/
def chat (available : Bool) (chunks : List (List Char))
    (simsOf : List Char → Option (List ℚ)) (input : List Char) : List Char :=
  let trimmed := trimChars input
  if trimmed = [] then promptMsg
  else
    match findRelevantChunks available chunks simsOf trimmed 3 with
    | [] => fallbackMsg
    | (best, _) :: _ => extractAnswer best

/-- A record with only a company description: the builder emits 15 description
chunks but 16 metadata entries for it. -/
def descOnlyData : CompanyData := { companyDescription := txt "D" }

/-- A record with a single named service. -/
def svcOnlyData : CompanyData := { services := [{ name := txt "X", details := txt "D" }] }

/-- On an empty corpus the ranker never returns anything, whatever the
availability flag, encoder outcome and question. -/
theorem findRelevantChunks_nil (available : Bool)
    (simsOf : List Char → Option (List ℚ)) (q : List Char) (topK : ℕ) :
    findRelevantChunks available [] simsOf q topK = [] := by
  cases available with
  | false => rfl
  | true =>
    cases hs : simsOf q with
    | none => simp [findRelevantChunks, hs]
    | some sims => simp [findRelevantChunks, hs, findRelevantCore, argsortDesc, idxPairs]

/-- C1: every (chunk, score) pair returned by the similarity ranker has
similarity strictly greater than 0.30; a candidate with similarity at or
below 0.30 is never returned. -/
theorem ranker_threshold (entries : List (List Char × ℚ)) (topK : ℕ)
    (c : List Char) (s : ℚ) (h : (c, s) ∈ findRelevantCore entries topK) :
    simThreshold < s := by
  simp only [findRelevantCore] at h
  have h1 := List.mem_of_mem_take h
  have h2 := (List.perm_insertionSort rankRel _).mem_iff.mp h1
  obtain ⟨idx, _, hf⟩ := List.mem_filterMap.mp h2
  cases hg : entries.get? idx with
  | none => rw [hg] at hf; exact absurd hf (by simp)
  | some p =>
    obtain ⟨pc, ps⟩ := p
    rw [hg] at hf
    have hf2 : (if simThreshold < ps then some (pc, ps) else none) = some (c, s) := hf
    by_cases ht : simThreshold < ps
    · rw [if_pos ht] at hf2
      cases hf2
      exact ht
    · rw [if_neg ht] at hf2
      cases hf2

/-- Witness for `ranker_threshold` at a concrete one-chunk corpus. -/
theorem ranker_threshold_witness :
    (txt "a", halfScore) ∈ findRelevantCore [(txt "a", halfScore)] 3
    ∧ simThreshold < halfScore :=
  ⟨by decide, ranker_threshold [(txt "a", halfScore)] 3 (txt "a") halfScore (by decide)⟩

/-- C9: input that is empty or whitespace-only after trimming makes `chat`
return the prompt-for-input message, for every availability flag, corpus and
encoder — so no encoding, ranking or extraction takes place and nothing is
raised. -/
theorem chat_empty_input (available : Bool) (chunks : List (List Char))
    (simsOf : List Char → Option (List ℚ)) (input : List Char)
    (h : trimChars input = []) :
    chat available chunks simsOf input = promptMsg := by
  simp [chat, h]

/-- Witness for `chat_empty_input` on a whitespace-only input. -/
theorem chat_empty_input_witness :
    chat true [txt "a"] (fun _ => some [1]) (txt "   ") = promptMsg :=
  chat_empty_input true [txt "a"] (fun _ => some [1]) (txt "   ") (by decide)

/-- C7 counterexample: with the provider unavailable, a whitespace-only input
makes `chat` return the prompt-for-input message, which differs from the
generic fallback string — so not every call in degraded mode returns the
fallback. -/
theorem chat_unavailable_counterexample :
    chat false [] (fun _ => none) (txt " ") = promptMsg ∧ promptMsg ≠ fallbackMsg := by
  exact ⟨by decide, by decide⟩

/-- C7 (amended): with the provider unavailable, construction still completes
(the model is total) and every `chat` call returns a canned string without
raising: the generic fallback for input that is non-empty after trimming, the
prompt-for-input message for empty/whitespace input. -/
theorem chat_unavailable_fallback (chunks : List (List Char))
    (simsOf : List Char → Option (List ℚ)) (input : List Char) :
    chat false chunks simsOf input =
      if trimChars input = [] then promptMsg else fallbackMsg := by
  by_cases h : trimChars input = [] <;> simp [chat, findRelevantChunks, h]

/-- Witness for `chat_unavailable_fallback` on a non-empty question. -/
theorem chat_unavailable_fallback_witness :
    chat false [] (fun _ => none) (txt "hi") = fallbackMsg := by
  have h := chat_unavailable_fallback [] (fun _ => none) (txt "hi")
  rwa [if_neg (by decide)] at h

/-- C10: when the company-data file is missing or holds invalid JSON, loading
returns the empty record without raising, the built corpus is empty, and every
subsequent `chat` call still returns one of the canned strings (the fallback
path) instead of crashing. -/
theorem chat_bad_data_safe :
    (loadCompanyData .fileNotFound = emptyCompanyData
      ∧ loadCompanyData .invalidJSON = emptyCompanyData)
    ∧ buildDatasetChunks emptyCompanyData = ([], [])
    ∧ ∀ (available : Bool) (simsOf : List Char → Option (List ℚ)) (input : List Char),
        chat available (buildDatasetChunks (loadCompanyData .fileNotFound)).1 simsOf input
          = promptMsg
        ∨ chat available (buildDatasetChunks (loadCompanyData .fileNotFound)).1 simsOf input
          = fallbackMsg := by
  refine ⟨⟨rfl, rfl⟩, by decide, ?_⟩
  intro available simsOf input
  by_cases h : trimChars input = []
  · exact Or.inl (by simp [chat, h])
  · refine Or.inr ?_
    have hempty : (buildDatasetChunks (loadCompanyData .fileNotFound)).1 = [] := by decide
    rw [hempty]
    simp [chat, h, findRelevantChunks_nil]

/-- C5 (code bug): the builder does not keep `dataset_chunks` and
`chunk_metadata` aligned: a record with only a description yields 15 chunks
but 16 metadata entries, and a record with one named service yields 15 chunks
but 14 metadata entries. -/
theorem builder_metadata_mismatch :
    (buildDatasetChunks descOnlyData).1.length = 15
    ∧ (buildDatasetChunks descOnlyData).2.length = 16
    ∧ (buildDatasetChunks svcOnlyData).1.length = 15
    ∧ (buildDatasetChunks svcOnlyData).2.length = 14 := by
  exact ⟨by decide, by decide, by decide, by decide⟩

/-- C6 (code bug): the builder emits the chunk
`Kya services dete hain answer X` whose phrasing-prefix
`Kya services dete hain answer ` is not in the extractor's pattern set, so the
extractor strips only the shorter `Kya services dete hain ` and leaves the
residual word `answer` in the answer. -/
theorem builder_extractor_desync :
    (txt "Kya services dete hain answer X") ∈ (buildDatasetChunks svcOnlyData).1
    ∧ (txt "Kya services dete hain answer ") ∉ patternsToRemove
    ∧ extractAnswer (txt "Kya services dete hain answer X") = txt "answer X" := by
  exact ⟨by decide, by decide, by decide⟩

/-- A boolean prefix is no longer than the word it prefixes. -/
theorem isPrefixOf_length_le : ∀ {p t : List Char}, p.isPrefixOf t = true → p.length ≤ t.length
  | [], _, _ => Nat.zero_le _
  | _ :: _, [], h => by simp [List.isPrefixOf] at h
  | _ :: _, _ :: _, h => by
    simp only [List.isPrefixOf, Bool.and_eq_true] at h
    simpa [Nat.succ_le_succ_iff] using isPrefixOf_length_le h.2

/-- Boolean prefix test is reflexive. -/
theorem isPrefixOf_self : ∀ (p : List Char), p.isPrefixOf p = true
  | [] => rfl
  | _ :: ps => by simp [List.isPrefixOf, isPrefixOf_self ps]

/-- Two prefixes of the same word with the same length are equal. -/
theorem eq_of_isPrefixOf_of_length_eq : ∀ {p q t : List Char},
    p.isPrefixOf t = true → q.isPrefixOf t = true → p.length = q.length → p = q
  | [], [], _, _, _, _ => rfl
  | [], _ :: _, _, _, _, hl => by simp at hl
  | _ :: _, [], _, _, _, hl => by simp at hl
  | _ :: _, _ :: _, [], hp, _, _ => by simp [List.isPrefixOf] at hp
  | a :: as, b :: bs, c :: cs, hp, hq, hl => by
    simp only [List.isPrefixOf, Bool.and_eq_true, beq_iff_eq] at hp hq
    simp only [List.length_cons, Nat.succ.injEq] at hl
    have hrest := eq_of_isPrefixOf_of_length_eq hp.2 hq.2 hl
    simp [hp.1, hq.1, hrest]

/-- In a list sorted by non-increasing length, `find?` over the prefix test
returns a given member that is a prefix of `t` of maximal length among the
members that are prefixes of `t`. -/
theorem find_longest (l : List (List Char)) (hs : List.Sorted lenRel l)
    (t p2 : List Char) (hmem : p2 ∈ l) (hpre : p2.isPrefixOf t = true)
    (hmax : ∀ q ∈ l, q.isPrefixOf t = true → q.length ≤ p2.length) :
    l.find? (fun p => p.isPrefixOf t) = some p2 := by
  induction l with
  | nil => cases hmem
  | cons x xs ih =>
    rw [List.sorted_cons] at hs
    by_cases hx : x.isPrefixOf t = true
    · rw [List.find?_cons]
      simp only [hx]
      rcases List.mem_cons.mp hmem with heq | hmem2
      · rw [heq]
      · have hlen1 : x.length ≤ p2.length := hmax x (List.mem_cons_self x xs) hx
        have hlen2 : p2.length ≤ x.length := hs.1 p2 hmem2
        exact congrArg some (eq_of_isPrefixOf_of_length_eq hx hpre (Nat.le_antisymm hlen1 hlen2))
    · have hx2 : x.isPrefixOf t = false := Bool.eq_false_iff.mpr hx
      rw [List.find?_cons]
      simp only [hx2]
      have hmem2 : p2 ∈ xs := by
        rcases List.mem_cons.mp hmem with heq | h2
        · exact absurd (heq ▸ hpre) hx
        · exact h2
      exact ih hs.2 hmem2 (fun q hq => hmax q (List.mem_cons_of_mem x hq))

/-- C4: on non-empty input the extractor returns a non-empty string, and it
returns the input unchanged when no known pattern is a prefix of it or when
the remainder after stripping and trimming is empty; it never raises (the
model is a total function). -/
theorem extractor_safety (t : List Char) (h : t ≠ []) :
    extractAnswer t ≠ []
    ∧ ((∀ p ∈ patternsToRemove, ¬ p.isPrefixOf t = true) → extractAnswer t = t)
    ∧ (∀ p, (List.insertionSort lenRel patternsToRemove).find? (fun q => q.isPrefixOf t) = some p →
        trimChars (t.drop p.length) = [] → extractAnswer t = t) := by
  refine ⟨?_, ?_, ?_⟩
  · unfold extractAnswer
    cases hf : (List.insertionSort lenRel patternsToRemove).find? (fun p => p.isPrefixOf t) with
    | none => exact h
    | some p =>
      show (if trimChars (t.drop p.length) = [] then t
            else trimChars (t.drop p.length)) ≠ []
      by_cases ha : trimChars (t.drop p.length) = []
      · rw [if_pos ha]; exact h
      · rw [if_neg ha]; exact ha
  · intro hnone
    have hfind : (List.insertionSort lenRel patternsToRemove).find? (fun q => q.isPrefixOf t) = none := by
      rw [List.find?_eq_none]
      intro x hx
      exact hnone x ((List.perm_insertionSort lenRel patternsToRemove).mem_iff.mp hx)
    unfold extractAnswer
    rw [hfind]
  · intro p hp ha
    unfold extractAnswer
    rw [hp]
    show (if trimChars (t.drop p.length) = [] then t
          else trimChars (t.drop p.length)) = t
    rw [if_pos ha]

/-- Witness for `extractor_safety` on the input `hello`, which no pattern
matches. -/
theorem extractor_safety_witness :
    extractAnswer (txt "hello") ≠ []
    ∧ ((∀ p ∈ patternsToRemove, ¬ p.isPrefixOf (txt "hello") = true) →
        extractAnswer (txt "hello") = txt "hello")
    ∧ (∀ p, (List.insertionSort lenRel patternsToRemove).find?
          (fun q => q.isPrefixOf (txt "hello")) = some p →
        trimChars ((txt "hello").drop p.length) = [] →
        extractAnswer (txt "hello") = txt "hello") :=
  extractor_safety (txt "hello") (by decide)

/-- C3: when a chunk text starts with a known pattern `p2` of maximal length
among the matching patterns — in particular when two known patterns match and
one is a string prefix of the other — the extractor strips exactly `p2` (the
longer one, not the shorter `p1`) and trims the remainder, leaving no residual
phrasing of `p2` in the answer. -/
theorem extractor_longest_match (p1 p2 : List Char)
    (h1 : p1 ∈ patternsToRemove) (h2 : p2 ∈ patternsToRemove)
    (hp : p1.isPrefixOf p2 = true) (hne : p1 ≠ p2)
    (t : List Char) (ht : p2.isPrefixOf t = true)
    (hmax : ∀ q ∈ patternsToRemove, q.isPrefixOf t = true → q.length ≤ p2.length)
    (hrem : trimChars (t.drop p2.length) ≠ []) :
    extractAnswer t = trimChars (t.drop p2.length) ∧ p1.length < p2.length := by
  constructor
  · have hmem : p2 ∈ List.insertionSort lenRel patternsToRemove :=
      (List.perm_insertionSort lenRel patternsToRemove).mem_iff.mpr h2
    have hmax2 : ∀ q ∈ List.insertionSort lenRel patternsToRemove,
        q.isPrefixOf t = true → q.length ≤ p2.length :=
      fun q hq => hmax q ((List.perm_insertionSort lenRel patternsToRemove).mem_iff.mp hq)
    have hfind := find_longest _ (List.sorted_insertionSort lenRel patternsToRemove)
      t p2 hmem ht hmax2
    unfold extractAnswer
    rw [hfind]
    show (if trimChars (t.drop p2.length) = [] then t
          else trimChars (t.drop p2.length)) = trimChars (t.drop p2.length)
    rw [if_neg hrem]
  · rcases Nat.lt_or_ge p1.length p2.length with hlt | hge
    · exact hlt
    · have hle : p1.length ≤ p2.length := isPrefixOf_length_le hp
      have heq : p1 = p2 :=
        eq_of_isPrefixOf_of_length_eq hp (isPrefixOf_self p2) (Nat.le_antisymm hle hge)
      exact absurd heq hne

/-- Witness for `extractor_longest_match`: the text
`Services offered by company X` starts with both `Services offered ` and the
longer `Services offered by company `, and the longer one is stripped. -/
theorem extractor_longest_match_witness :
    extractAnswer (txt "Services offered by company X")
        = trimChars ((txt "Services offered by company X").drop
            (txt "Services offered by company ").length)
    ∧ (txt "Services offered ").length < (txt "Services offered by company ").length :=
  extractor_longest_match (txt "Services offered ") (txt "Services offered by company ")
    (by decide) (by decide) (by decide) (by decide)
    (txt "Services offered by company X") (by decide) (by decide) (by decide)

/-- C2: the ranker returns at most `topK` matches, sorted by non-increasing
similarity, each drawn (at its over-fetch index) from the `topK * 5`
highest-scoring indices selected before threshold filtering, and it returns
the empty list — a valid outcome, not an error — when no candidate clears the
threshold. -/
theorem ranker_contract (entries : List (List Char × ℚ)) (topK : ℕ) :
    (findRelevantCore entries topK).length ≤ topK
    ∧ List.Sorted rankRel (findRelevantCore entries topK)
    ∧ (∀ p ∈ findRelevantCore entries topK,
        ∃ idx ∈ (argsortDesc (entries.map Prod.snd)).take (topK * 5),
          entries.get? idx = some p)
    ∧ (∀ i ∈ (argsortDesc (entries.map Prod.snd)).take (topK * 5),
        ∀ j, j < (entries.map Prod.snd).length →
          j ∉ (argsortDesc (entries.map Prod.snd)).take (topK * 5) →
          (entries.map Prod.snd).getD j 0 ≤ (entries.map Prod.snd).getD i 0)
    ∧ ((∀ p ∈ entries, p.2 ≤ simThreshold) → findRelevantCore entries topK = []) := by
  refine ⟨?_, ?_, ?_, ?_, ?_⟩
  · simp only [findRelevantCore]
    rw [List.length_take]
    exact min_le_left _ _
  · simp only [findRelevantCore]
    exact List.Pairwise.sublist (List.take_sublist _ _)
      (List.sorted_insertionSort rankRel _)
  · intro p hp
    simp only [findRelevantCore] at hp
    have h1 := List.mem_of_mem_take hp
    have h2 := (List.perm_insertionSort rankRel _).mem_iff.mp h1
    obtain ⟨idx, hidx, hf⟩ := List.mem_filterMap.mp h2
    refine ⟨idx, hidx, ?_⟩
    cases hg : entries.get? idx with
    | none => rw [hg] at hf; exact absurd hf (by simp)
    | some q =>
      obtain ⟨qc, qs⟩ := q
      rw [hg] at hf
      have hf2 : (if simThreshold < qs then some (qc, qs) else none) = some p := hf
      by_cases ht : simThreshold < qs
      · rw [if_pos ht] at hf2
        rw [hf2]
      · rw [if_neg ht] at hf2
        cases hf2
  · intro i hi j hj hnj
    have hrw2 : (argsortDesc (entries.map Prod.snd)).take (topK * 5)
        = ((List.insertionSort ascRel (idxPairs (entries.map Prod.snd))).reverse.take
            (topK * 5)).map Prod.fst := by
      rw [argsortDesc, ← List.map_reverse, ← List.map_take]
    rw [hrw2] at hi hnj
    obtain ⟨⟨i', vi⟩, hpair, hfst⟩ := List.mem_map.mp hi
    cases hfst
    have hmemPairs : (i', vi) ∈ idxPairs (entries.map Prod.snd) :=
      (List.perm_insertionSort ascRel _).mem_iff.mp
        (List.mem_reverse.mp (List.mem_of_mem_take hpair))
    obtain ⟨i0, _, hi0eq⟩ := List.mem_map.mp hmemPairs
    obtain ⟨hi0, hvi⟩ := Prod.mk.injEq .. ▸ (Prod.mk.injEq i0 _ i' vi).mp hi0eq
    have hjpair : (j, (entries.map Prod.snd).getD j 0) ∈ idxPairs (entries.map Prod.snd) :=
      List.mem_map.mpr ⟨j, List.mem_range.mpr hj, rfl⟩
    have hjrev : (j, (entries.map Prod.snd).getD j 0)
        ∈ (List.insertionSort ascRel (idxPairs (entries.map Prod.snd))).reverse :=
      List.mem_reverse.mpr ((List.perm_insertionSort ascRel _).mem_iff.mpr hjpair)
    have hpw : List.Pairwise (fun a b : ℕ × ℚ => b.2 ≤ a.2)
        (List.insertionSort ascRel (idxPairs (entries.map Prod.snd))).reverse := by
      rw [List.pairwise_reverse]
      exact List.sorted_insertionSort ascRel (idxPairs (entries.map Prod.snd))
    have hsplit := List.take_append_drop (topK * 5)
      (List.insertionSort ascRel (idxPairs (entries.map Prod.snd))).reverse
    rw [← hsplit] at hjrev hpw
    rcases List.mem_append.mp hjrev with hjtake | hjdrop
    · exact absurd (List.mem_map.mpr ⟨(j, (entries.map Prod.snd).getD j 0), hjtake, rfl⟩) hnj
    · have hcross := (List.pairwise_append.mp hpw).2.2 _ hpair _ hjdrop
      simpa using hcross
  · intro hall
    simp only [findRelevantCore]
    have hnil : List.filterMap
        (fun idx => match entries.get? idx with
          | some (chunk, sim) => if simThreshold < sim then some (chunk, sim) else none
          | none => none)
        ((argsortDesc (entries.map Prod.snd)).take (topK * 5)) = [] := by
      rw [List.filterMap_eq_nil_iff]
      intro idx _
      cases hg : entries.get? idx with
      | none => rfl
      | some q =>
        obtain ⟨qc, qs⟩ := q
        have hle : ¬ simThreshold < qs := not_lt.mpr (hall (qc, qs) (List.get?_mem hg))
        show (if simThreshold < qs then some (qc, qs) else none) = none
        rw [if_neg hle]
    rw [hnil]
    simp

/-- Witness for `ranker_contract`: a corpus whose only score is below the
threshold produces the empty ranking, and a two-chunk corpus obeys the length
bound. -/
theorem ranker_contract_witness :
    findRelevantCore [(txt "a", lowScore)] 1 = []
    ∧ (findRelevantCore [(txt "a", halfScore), (txt "b", lowScore)] 1).length ≤ 1 :=
  ⟨(ranker_contract [(txt "a", lowScore)] 1).2.2.2.2 (by decide),
   (ranker_contract [(txt "a", halfScore), (txt "b", lowScore)] 1).1⟩

/-- Insertion sort leaves a list unchanged when every two members are related
(in particular when all sort keys are equal): this captures the stability of
the Python sort on all-tied input. -/
theorem insertionSort_all_rel {α : Type*} (r : α → α → Prop) [DecidableRel r] :
    ∀ (l : List α), (∀ a ∈ l, ∀ b ∈ l, r a b) → List.insertionSort r l = l
  | [], _ => rfl
  | x :: xs, h => by
    have hxs := insertionSort_all_rel r xs
      (fun a ha b hb => h a (List.mem_cons_of_mem x ha) b (List.mem_cons_of_mem x hb))
    simp only [List.insertionSort, hxs]
    cases xs with
    | nil => rfl
    | cons y ys =>
      exact List.orderedInsert_of_le r ys
        (h x (List.mem_cons_self x (y :: ys)) y
          (List.mem_cons_of_mem x (List.mem_cons_self y ys)))

/-- Indexing a list by `get?` over the full range of its indices recovers the
list. -/
theorem filterMap_range_get {α : Type*} : ∀ (l : List α),
    (List.range l.length).filterMap (fun i => l.get? i) = l
  | [] => rfl
  | x :: xs => by
    rw [List.length_cons, List.range_succ_eq_map]
    have hhd : List.filterMap (fun i => (x :: xs).get? i)
        (0 :: (List.range xs.length).map Nat.succ)
        = x :: List.filterMap (fun i => (x :: xs).get? i)
            ((List.range xs.length).map Nat.succ) :=
      List.filterMap_cons_some rfl
    rw [hhd, List.filterMap_map]
    have hcomp : ((fun i => (x :: xs).get? i) ∘ Nat.succ) = fun i => xs.get? i := by
      funext i
      rfl
    rw [hcomp, filterMap_range_get xs]

/-- C8 counterexample: two candidates with equal similarity are returned in
reverse corpus order (index 1 before index 0), not in their discovery order. -/
theorem ranker_tie_counterexample :
    findRelevantCore [(txt "a", halfScore), (txt "b", halfScore)] 3
        = [(txt "b", halfScore), (txt "a", halfScore)]
    ∧ findRelevantCore [(txt "a", halfScore), (txt "b", halfScore)] 3
        ≠ [(txt "a", halfScore), (txt "b", halfScore)] := by
  exact ⟨by decide, by decide⟩

/-- C8 (amended): equal-scoring candidates come back in reverse corpus order:
the descending index selection reverses the (stable, ascending) argsort, and
the stability of the final sort preserves that reversed order.  In particular,
when all candidates are tied above the threshold and the corpus fits in the
over-fetch window, the ranking is exactly the reversed corpus truncated to
`topK`. -/
theorem ranker_ties_reversed (entries : List (List Char × ℚ)) (topK : ℕ) (s : ℚ)
    (hall : ∀ p ∈ entries, p.2 = s) (hth : simThreshold < s)
    (hlen : entries.length ≤ topK * 5) :
    findRelevantCore entries topK = (entries.reverse).take topK := by
  have hsimsLen : (entries.map Prod.snd).length = entries.length :=
    List.length_map entries Prod.snd
  have hsims : ∀ x ∈ entries.map Prod.snd, x = s := by
    intro x hx
    obtain ⟨p, hp, rfl⟩ := List.mem_map.mp hx
    exact hall p hp
  have hpairs : ∀ q ∈ idxPairs (entries.map Prod.snd), q.2 = s := by
    intro q hq
    obtain ⟨i, hi, rfl⟩ := List.mem_map.mp hq
    have hilt := List.mem_range.mp hi
    show (entries.map Prod.snd).getD i 0 = s
    rw [List.getD_eq_getElem?_getD, List.getElem?_eq_getElem hilt]
    exact hsims _ (List.getElem_mem hilt)
  have hsortAsc : List.insertionSort ascRel (idxPairs (entries.map Prod.snd))
      = idxPairs (entries.map Prod.snd) :=
    insertionSort_all_rel ascRel _
      (fun a ha b hb => by
        show a.2 ≤ b.2
        rw [hpairs a ha, hpairs b hb])
  have hfst : (idxPairs (entries.map Prod.snd)).map Prod.fst
      = List.range (entries.map Prod.snd).length := by
    rw [idxPairs, List.map_map]
    exact List.map_id'' (fun x => rfl) _
  have hargsort : argsortDesc (entries.map Prod.snd)
      = (List.range entries.length).reverse := by
    rw [argsortDesc, hsortAsc, hfst, hsimsLen]
  have htake : ((List.range entries.length).reverse).take (topK * 5)
      = (List.range entries.length).reverse := by
    apply List.take_of_length_le
    rw [List.length_reverse, List.length_range]
    exact hlen
  have hfm : List.filterMap
      (fun idx => match entries.get? idx with
        | some (chunk, sim) => if simThreshold < sim then some (chunk, sim) else none
        | none => none)
      ((List.range entries.length).reverse)
      = entries.reverse := by
    have hcongr : ∀ idx ∈ (List.range entries.length).reverse,
        (match entries.get? idx with
          | some (chunk, sim) => if simThreshold < sim then some (chunk, sim) else none
          | none => none) = entries.get? idx := by
      intro idx hidx
      have hlt : idx < entries.length := List.mem_range.mp (List.mem_reverse.mp hidx)
      cases hg : entries.get? idx with
      | none => exact absurd (List.get?_eq_none.mp hg) (Nat.not_le.mpr hlt)
      | some q =>
        obtain ⟨qc, qs⟩ := q
        have hq : qs = s := hall (qc, qs) (List.get?_mem hg)
        show (if simThreshold < qs then some (qc, qs) else none) = some (qc, qs)
        rw [if_pos (by rw [hq]; exact hth)]
    rw [List.filterMap_congr hcongr, List.filterMap_reverse, filterMap_range_get entries]
  have hrev : ∀ a ∈ entries.reverse, ∀ b ∈ entries.reverse, rankRel a b := by
    intro a ha b hb
    show b.2 ≤ a.2
    rw [hall a (List.mem_reverse.mp ha), hall b (List.mem_reverse.mp hb)]
  simp only [findRelevantCore]
  rw [hargsort, htake, hfm, insertionSort_all_rel rankRel _ hrev]

/-- Witness for `ranker_ties_reversed` on a concrete two-chunk tied corpus. -/
theorem ranker_ties_reversed_witness :
    findRelevantCore [(txt "a", halfScore), (txt "b", halfScore)] 3
      = ([(txt "a", halfScore), (txt "b", halfScore)].reverse).take 3 :=
  ranker_ties_reversed [(txt "a", halfScore), (txt "b", halfScore)] 3 halfScore
    (by decide) (by decide) (by decide)
